import Mathlib

/-!
# mistral-api-client: model selection and code generation

A shallow embedding of `src/mistral-api-client/main.go`.

* Go strings and byte slices are modelled as Lean strings (the client only
  ever handles text decoded by `encoding/json`, which is valid UTF-8).
* Go `int` is modelled as `Int`.
* Go `float64` is modelled by its IEEE-754 binary64 bit pattern, a natural
  number read modulo `2^64`.
* `strings.Builder` is modelled by the string accumulated so far, and
  `WriteString` by appending to it.
* The operating system (files, console, clock, network) is modelled by an
  explicit record of the answers it gives and an explicit trace of the
  effects the program performs.
-/

namespace MistralApiClient

/-! ## Data model (main.go, lines 17-51) -/

/-- An IEEE-754 binary64 value, given by its bit pattern (read modulo `2^64`). -/
structure Float64 where
  bits : Nat
deriving DecidableEq, Repr

structure Capabilities where
  CompletionChat : Bool
  CompletionFim : Bool
  FunctionCalling : Bool
  FineTuning : Bool
  Vision : Bool
deriving DecidableEq, Repr

structure Model where
  ID : String
  Object : String
  Created : Int
  OwnedBy : String
  Capabilities : Capabilities
  Name : String
  Description : String
  MaxContextLength : Int
  Aliases : List String
  /-- The `interface{}` field: `none` when absent or null, otherwise the
  decoded value, kept as text; nothing in the program inspects it. -/
  Deprecation : Option String
  DefaultModelTemperature : Float64
  /-- The Go field `Type` (a reserved word here). -/
  Type_ : String
deriving DecidableEq, Repr

structure ModelsResponse where
  Object : String
  Data : List Model
deriving DecidableEq, Repr

/-! ## Library functions used by the program -/

/-- Decimal digits of a natural number, most significant first, produced the
way `fmt.fmtInteger` does: peel off `u % 10` while `u >= 10`, then emit the
last digit. The recursion is on `fuel`; `fuel = u` always suffices. -/
def fmtDigits : Nat → Nat → List Char → List Char
  | 0, u, acc => Nat.digitChar (u % 10) :: acc
  | fuel + 1, u, acc =>
    if u ≥ 10 then fmtDigits fuel (u / 10) (Nat.digitChar (u % 10) :: acc)
    else Nat.digitChar u :: acc

/-- The `%d` verb on an unsigned magnitude. -/
def fmtUnsigned (u : Nat) : String := ⟨fmtDigits u u []⟩

/-- The `%d` verb of `fmt.Sprintf` on an integer: a minus sign for negative
values, then the decimal digits of the magnitude. -/
def fmtInteger (n : Int) : String :=
  if n < 0 then "-" ++ fmtUnsigned n.natAbs else fmtUnsigned n.natAbs

/-- The `%t` verb of `fmt.Sprintf`. -/
def fmtBoolean (b : Bool) : String := if b then "true" else "false"

/-- Sign bit of a binary64 bit pattern. -/
def Float64.neg (f : Float64) : Bool := decide ((f.bits % 2 ^ 64) / 2 ^ 63 ≠ 0)

/-- Biased exponent field (11 bits). -/
def Float64.expField (f : Float64) : Nat := ((f.bits % 2 ^ 64) / 2 ^ 52) % 2 ^ 11

/-- Fraction field (52 bits). -/
def Float64.mantField (f : Float64) : Nat := (f.bits % 2 ^ 64) % 2 ^ 52

/-- A finite value: the exponent field is not all ones. -/
def Float64.isFinite (f : Float64) : Bool := decide (f.expField ≠ 2047)

/-- The magnitude of a finite binary64 value is `mant * 2 ^ (exp - 1075)`,
with the implicit leading bit added for normal numbers and the exponent of
subnormal numbers taken as 1 (`strconv.genericFtoa`). This returns
`(mant, exp)`. -/
def Float64.decompose (f : Float64) : Nat × Nat :=
  if f.expField = 0 then (f.mantField, 1) else (f.mantField + 2 ^ 52, f.expField)

/-- The magnitude of a finite value times 100, rounded to the nearest
integer, ties to even: the digits `strconv` keeps for the format `f` with
precision 2 (exact decimal expansion, then `decimal.Round`). -/
def Float64.roundedHundredths (f : Float64) : Nat :=
  let (mant, exp) := f.decompose
  if exp ≥ 1075 then mant * 100 * 2 ^ (exp - 1075)
  else
    let d := 2 ^ (1075 - exp)
    let q := (mant * 100) / d
    let r := (mant * 100) % d
    if 2 * r > d ∨ (2 * r = d ∧ q % 2 = 1) then q + 1 else q

/-- The `%.2f` verb of `fmt.Sprintf` on a `float64`. -/
def fmtFloat2 (f : Float64) : String :=
  if f.expField = 2047 then
    (if f.mantField ≠ 0 then "NaN" else if f.neg then "-Inf" else "+Inf")
  else
    let q := f.roundedHundredths
    (if f.neg then "-" else "") ++ fmtUnsigned (q / 100) ++ "." ++
      String.mk [Nat.digitChar (q / 10 % 10), Nat.digitChar (q % 10)]

/-- The function `strings.HasSuffix`:
`len(s) >= len(suffix) && s[len(s)-len(suffix):] == suffix`. -/
def HasSuffix (s suffix : String) : Bool :=
  decide (s.length ≥ suffix.length) &&
    (s.data.drop (s.length - suffix.length) == suffix.data)

/-! ## generateModelDescription (main.go, lines 53-78) -/

/-- Lines 65-71: the seven `WriteString` calls made for a record that is not
skipped. -/
def writeEntry (output : String) (model : Model) : String :=
  let output := output ++ ("\t\"" ++ model.ID ++ "\": \x7b\n")
  let output := output ++ ("\t\tmaxTokens: " ++ fmtInteger model.MaxContextLength ++ ",\n")
  let output := output ++ ("\t\tcontextWindow: " ++ fmtInteger model.MaxContextLength ++ ",\n")
  let output := output ++ ("\t\tsupportsImages: " ++ fmtBoolean model.Capabilities.Vision ++ ",\n")
  let output := output ++ "\t\tsupportsPromptCache: false,\n"
  let output := output ++ ("\t\tdefaultTemperature: " ++ fmtFloat2 model.DefaultModelTemperature ++ ",\n")
  let output := output ++ "\t\x7d,\n"
  output

/-- Lines 59-72: one iteration of the loop over `models.Data`. -/
def loopBody (output : String) (model : Model) : String :=
  if !model.Capabilities.CompletionChat || !HasSuffix model.ID "-latest" then
    output
  else
    writeEntry output model

/-- Lines 54-74: the text accumulated in the builder when the loop and the
final `WriteString` are done. -/
def generatedText (models : ModelsResponse) : String :=
  let output := ""
  let output := output ++ "export const mistralDefaultModelId: MistralModelId = \"mistral-large-latest\"\n\n"
  let output := output ++ "export const mistralModels = \x7b\n"
  let output := models.Data.foldl loopBody output
  let output := output ++ "\x7d as const satisfies Record<string, ModelInfo>\n"
  output

/-! ## Operating system and libraries, as seen by the program -/

/-- What `client.Do` hands back: the status code and the outcome of
`io.ReadAll(resp.Body)` (the body, or a read error). -/
structure HttpResponse where
  StatusCode : Int
  Body : Except String String

/-- The answers the outside world gives to the calls the program makes. -/
structure World where
  /-- Error of `godotenv.Load()`, if any. -/
  dotenvErr : Option String
  /-- The function `os.Getenv`. -/
  getenv : String → String
  /-- Error of `http.NewRequest`, if any. -/
  newRequestErr : Option String
  /-- The call `client.Do(req)`: given method, URL and headers. -/
  clientDo : String → String → List (String × String) → Except String HttpResponse
  /-- Error of `os.MkdirAll` for a path, if any. -/
  mkdirAllErr : String → Option String
  /-- The value of `time.Now().Format("2006-01-02_15-04-05")`. -/
  now : String
  /-- Error of `os.WriteFile` for a file name and content, if any. -/
  writeFileErr : String → String → Option String
  /-- The call `json.Unmarshal(body, &models)`. -/
  jsonUnmarshal : String → Except String ModelsResponse

/-- An effect performed by the program. -/
inductive Event where
  /-- Text sent to standard output by `fmt.Printf` or `fmt.Println`. -/
  | stdout (text : String)
  /-- The request sent by `client.Do`. -/
  | httpRequest (method url : String) (headers : List (String × String))
  /-- A call of `os.MkdirAll`. -/
  | mkdirAll (path : String) (perm : Nat)
  /-- A call of `os.WriteFile`. -/
  | writeFile (name : String) (data : String) (perm : Nat)
deriving DecidableEq, Repr

/-- Lines 53-78: `generateModelDescription`. It builds the text and hands it
to `os.WriteFile`; the result is the error returned and the effects. -/
def generateModelDescription (w : World) (models : ModelsResponse) :
    Option String × List Event :=
  let output := generatedText models
  (w.writeFileErr "mistralDescription.txt" output,
    [Event.writeFile "mistralDescription.txt" output 0o644])

def MISTRAL_API_URL : String := "https://api.mistral.ai/v1/models"

/-- The `%v` verb of `fmt.Printf` on a `[]string`. -/
def fmtStrings (xs : List String) : String := "[" ++ " ".intercalate xs ++ "]"

/-- Lines 143-158: the console summary of one record. -/
def printModel (model : Model) : List Event :=
  [ Event.stdout ("ID: " ++ model.ID ++ "\n"),
    Event.stdout ("Name: " ++ model.Name ++ "\n"),
    Event.stdout ("Description: " ++ model.Description ++ "\n"),
    Event.stdout ("Type: " ++ model.Type_ ++ "\n"),
    Event.stdout ("Max Context Length: " ++ fmtInteger model.MaxContextLength ++ "\n"),
    Event.stdout ("Default Temperature: " ++ fmtFloat2 model.DefaultModelTemperature ++ "\n"),
    Event.stdout "Capabilities:\n",
    Event.stdout ("  - Chat Completion: " ++ fmtBoolean model.Capabilities.CompletionChat ++ "\n"),
    Event.stdout ("  - FIM: " ++ fmtBoolean model.Capabilities.CompletionFim ++ "\n"),
    Event.stdout ("  - Function Calling: " ++ fmtBoolean model.Capabilities.FunctionCalling ++ "\n"),
    Event.stdout ("  - Fine Tuning: " ++ fmtBoolean model.Capabilities.FineTuning ++ "\n"),
    Event.stdout ("  - Vision: " ++ fmtBoolean model.Capabilities.Vision ++ "\n") ] ++
  (if model.Aliases.length > 0 then
    [Event.stdout ("Aliases: " ++ fmtStrings model.Aliases ++ "\n")] else []) ++
  [ Event.stdout "----------------\n" ]

/-- Lines 80-167: `main`, as the trace of effects it performs in the world
`w`. Every `return` of the source ends the trace. -/
def main (w : World) : List Event :=
  match w.dotenvErr with
  | some err => [Event.stdout ("Error loading .env file: " ++ err ++ "\n")]
  | none =>
  let apiKey := w.getenv "MISTRAL_API_KEY"
  if apiKey = "" then [Event.stdout "MISTRAL_API_KEY not found in environment\n"] else
  match w.newRequestErr with
  | some err => [Event.stdout ("Error creating request: " ++ err ++ "\n")]
  | none =>
  let headers := [("Authorization", "Bearer " ++ apiKey), ("Content-Type", "application/json")]
  let sent := [Event.httpRequest "GET" MISTRAL_API_URL headers]
  match w.clientDo "GET" MISTRAL_API_URL headers with
  | .error err => sent ++ [Event.stdout ("Error making request: " ++ err ++ "\n")]
  | .ok resp =>
  match resp.Body with
  | .error err => sent ++ [Event.stdout ("Error reading response: " ++ err ++ "\n")]
  | .ok body =>
  let made := sent ++ [Event.mkdirAll "logs" 0o755]
  match w.mkdirAllErr "logs" with
  | some err => made ++ [Event.stdout ("Error creating logs directory: " ++ err ++ "\n")]
  | none =>
  let timestamp := w.now
  let logFile := "logs/mistral_api_response_" ++ timestamp ++ ".json"
  let logged := made ++ [Event.writeFile logFile body 0o644]
  match w.writeFileErr logFile body with
  | some err => logged ++ [Event.stdout ("Error writing log file: " ++ err ++ "\n")]
  | none =>
  if resp.StatusCode ≠ 200 then
    logged ++ [Event.stdout ("Error: API returned status code " ++ fmtInteger resp.StatusCode ++
      "\nResponse: " ++ body ++ "\n")]
  else
  match w.jsonUnmarshal body with
  | .error err => logged ++ [Event.stdout ("Error parsing JSON: " ++ err ++ "\n")]
  | .ok models =>
  let listed := logged ++ [Event.stdout "Available Models:\n", Event.stdout "----------------\n"] ++
    (models.Data.map printModel).flatten
  match generateModelDescription w models with
  | (some err, effects) =>
    listed ++ effects ++ [Event.stdout ("Error generating model description: " ++ err ++ "\n")]
  | (none, effects) =>
    listed ++ effects ++ [Event.stdout "Model description generated successfully.\n"]

/-! ## Vocabulary of the specification -/

/-- The fixed text written before the loop: the declaration of
`mistralDefaultModelId`, a blank line, and the line opening `mistralModels`. -/
def preamble : String :=
  "export const mistralDefaultModelId: MistralModelId = \"mistral-large-latest\"\n" ++ "\n" ++
    "export const mistralModels = \x7b\n"

/-- The fixed last line. -/
def closing : String := "\x7d as const satisfies Record<string, ModelInfo>\n"

/-- A record is kept when it declares chat completion and its identifier
ends with `-latest`: some characters, then exactly `-latest`. -/
def Kept (m : Model) : Prop :=
  m.Capabilities.CompletionChat = true ∧ ∃ stem : String, m.ID = stem ++ "-latest"

instance instDecidableKept (m : Model) : Decidable (Kept m) :=
  decidable_of_iff (m.Capabilities.CompletionChat = true ∧ "-latest".data <:+ m.ID.data)
    (and_congr_right (fun _ =>
      ⟨fun h => h.elim (fun t ht => ⟨⟨t⟩, String.ext ht.symm⟩),
       fun h => h.elim (fun stem hs => ⟨stem.data, (congrArg String.data hs).symm⟩)⟩))

/-- The first line of the entry of a record: its quoted identifier. -/
def keyLine (m : Model) : String := "\t\"" ++ m.ID ++ "\": \x7b\n"

/-- The entry block the loop writes for a record: what `writeEntry` adds to
an empty builder. -/
def entryBlock (m : Model) : String := writeEntry "" m

/-- One step of reading a decimal numeral. -/
def readDigit (acc : Option Nat) (c : Char) : Option Nat :=
  match acc with
  | none => none
  | some v => if c.isDigit then some (10 * v + (c.toNat - 48)) else none

/-- Value of a string of decimal digits, `none` when a character is not a
digit or the string is empty. -/
def digitsValue : List Char → Option Nat
  | [] => none
  | cs => cs.foldl readDigit (some 0)

/-- Value of a decimal numeral with an optional leading minus sign. -/
def decimalValue (s : String) : Option Int :=
  match s.data with
  | '-' :: cs =>
    match digitsValue cs with
    | some v => some (-(v : Int))
    | none => none
  | cs =>
    match digitsValue cs with
    | some v => some (v : Int)
    | none => none

/-- The contents handed to `os.WriteFile` for the file `name`, in the order
of the calls; empty when the trace has no such call. -/
def writesTo (name : String) (trace : List Event) : List String :=
  trace.filterMap (fun e =>
    match e with
    | Event.writeFile n data _ => if n = name then some data else none
    | _ => none)

/-- A rendering with exactly two digits after the decimal point: an optional
minus sign, one or more digits, a point, two digits, and nothing else. -/
def hasTwoDecimals (s : String) : Bool :=
  let unsigned := match s.data with
    | '-' :: cs => cs
    | cs => cs
  let whole := unsigned.takeWhile Char.isDigit
  let fraction := unsigned.dropWhile Char.isDigit
  !whole.isEmpty &&
    (match fraction with
     | ['.', d₁, d₂] => d₁.isDigit && d₂.isDigit
     | _ => false)

/-! ## Sample inputs -/

/-- A chat model named `id` with context length 128000 and the given
temperature. -/
def chatModel (id : String) (temperature : Float64) : Model :=
  { ID := id, Object := "model", Created := 0, OwnedBy := "mistralai",
    Capabilities := ⟨true, false, true, false, false⟩,
    Name := id, Description := "", MaxContextLength := 128000, Aliases := [],
    Deprecation := none, DefaultModelTemperature := temperature, Type_ := "base" }

/-- The binary64 value nearest to 0.7. -/
def float0_7 : Float64 := ⟨0x3FE6666666666666⟩

/-- The binary64 value 1. -/
def float1 : Float64 := ⟨0x3FF0000000000000⟩

/-- The binary64 value that `math.NaN()` returns. -/
def floatNaN : Float64 := ⟨0x7FF8000000000001⟩

/-- A world in which every call succeeds and the server answers with the
given status code and body; the body does not decode. -/
def answeringWorld (status : Int) (body : String) : World :=
  { dotenvErr := none
    getenv := fun key => if key = "MISTRAL_API_KEY" then "secret" else ""
    newRequestErr := none
    clientDo := fun _ _ _ => .ok ⟨status, .ok body⟩
    mkdirAllErr := fun _ => none
    now := "2024-01-02_03-04-05"
    writeFileErr := fun _ _ => none
    jsonUnmarshal := fun _ => .error "unexpected end of JSON input" }

/-- A kept record whose temperature is not a number. -/
def nanModel : Model := chatModel "mistral-large-latest" floatNaN

/-- A kept record whose identifier contains a double quote. -/
def quotedModel : Model := chatModel "a\"b-latest" float0_7

/-- A record named like the declared default model, without chat completion. -/
def noChatModel : Model :=
  { chatModel "mistral-large-latest" float0_7 with
    Capabilities := ⟨false, false, true, false, false⟩ }

/-- The world `answeringWorld status body`, except that the directory `logs`
cannot be created. -/
def logsDirFailingWorld (status : Int) (body : String) : World :=
  { answeringWorld status body with mkdirAllErr := fun _ => some "mkdir logs: permission denied" }

/-- The name of the audit-log file for a timestamp. -/
def logFileName (timestamp : String) : String :=
  "logs/mistral_api_response_" ++ timestamp ++ ".json"

/-- The headers `main` adds to the request for an API key. -/
def requestHeaders (apiKey : String) : List (String × String) :=
  [("Authorization", "Bearer " ++ apiKey), ("Content-Type", "application/json")]

end MistralApiClient

namespace MistralApiClient

/-! ## Strings -/

theorem join_nil : String.join [] = "" := rfl

theorem join_cons (a : String) (l : List String) :
    String.join (a :: l) = a ++ String.join l := by
  apply String.ext
  simp [String.data_join]

theorem join_append (l₁ l₂ : List String) :
    String.join (l₁ ++ l₂) = String.join l₁ ++ String.join l₂ := by
  apply String.ext
  simp [String.data_join]

theorem append_left_cancel {a b c : String} (h : a ++ b = a ++ c) : b = c := by
  apply String.ext
  have := congrArg String.data h
  simpa using this

theorem append_right_cancel {a b c : String} (h : a ++ c = b ++ c) : a = b := by
  apply String.ext
  have := congrArg String.data h
  simpa using this

theorem HasSuffix_iff (s suffix : String) :
    HasSuffix s suffix = true ↔ suffix.data <:+ s.data := by
  unfold HasSuffix
  simp only [Bool.and_eq_true, decide_eq_true_eq, beq_iff_eq, String.length]
  constructor
  · rintro ⟨_, h⟩
    have key := List.take_append_drop (s.data.length - suffix.data.length) s.data
    rw [h] at key
    exact ⟨_, key⟩
  · rintro ⟨t, ht⟩
    rw [← ht]
    simp

/-! ## Decimal digits -/

theorem digitChar_isDigit : ∀ n, n < 10 →
    (Nat.digitChar n).isDigit = true ∧ (Nat.digitChar n).toNat - 48 = n := by
  decide

theorem digitsValue_eq (cs : List Char) (h : cs ≠ []) :
    digitsValue cs = cs.foldl readDigit (some 0) := by
  cases cs with
  | nil => exact absurd rfl h
  | cons c cs => rfl

theorem fmtDigits_spec (fuel : Nat) : ∀ (u : Nat) (acc : List Char), u ≤ fuel →
    ∃ ds : List Char, fmtDigits fuel u acc = ds ++ acc ∧ ds ≠ [] ∧
      (∀ c ∈ ds, c.isDigit = true) ∧
      ∀ v : Nat, ds.foldl readDigit (some v) = some (v * 10 ^ ds.length + u) := by
  induction fuel with
  | zero =>
    intro u acc hu
    have hu0 : u = 0 := Nat.le_zero.mp hu
    subst hu0
    refine ⟨['0'], rfl, by simp, by simp, ?_⟩
    intro v
    simp [readDigit]
    omega
  | succ fuel ih =>
    intro u acc hu
    unfold fmtDigits
    by_cases h10 : u ≥ 10
    · rw [if_pos h10]
      obtain ⟨ds, hds, hne, hdig, hval⟩ := ih (u / 10) (Nat.digitChar (u % 10) :: acc) (by omega)
      have hd := digitChar_isDigit (u % 10) (Nat.mod_lt _ (by decide))
      refine ⟨ds ++ [Nat.digitChar (u % 10)], by simp [hds], by simp, ?_, ?_⟩
      · intro c hc
        rcases List.mem_append.mp hc with hc | hc
        · exact hdig c hc
        · rw [List.mem_singleton.mp hc]
          exact hd.1
      · intro v
        rw [List.foldl_append, hval]
        simp only [List.foldl_cons, List.foldl_nil, readDigit, hd.1, if_true, hd.2,
          List.length_append, List.length_singleton, pow_succ]
        congr 1
        have := Nat.div_add_mod u 10
        ring_nf
        omega
    · rw [if_neg h10]
      have hd := digitChar_isDigit u (by omega)
      refine ⟨[Nat.digitChar u], rfl, by simp, ?_, ?_⟩
      · intro c hc
        rw [List.mem_singleton.mp hc]
        exact hd.1
      · intro v
        simp only [List.foldl_cons, List.foldl_nil, readDigit, hd.1, if_true, hd.2,
          List.length_singleton, pow_one]
        congr 1
        omega

theorem fmtUnsigned_spec (u : Nat) :
    (fmtUnsigned u).data ≠ [] ∧ (∀ c ∈ (fmtUnsigned u).data, c.isDigit = true) ∧
      digitsValue (fmtUnsigned u).data = some u := by
  obtain ⟨ds, hds, hne, hdig, hval⟩ := fmtDigits_spec u u [] (le_refl u)
  have hdata : (fmtUnsigned u).data = ds := by
    simp [fmtUnsigned, hds]
  rw [hdata]
  refine ⟨hne, hdig, ?_⟩
  rw [digitsValue_eq ds hne, hval 0]
  simp

theorem decimalValue_fmtInteger (n : Int) : decimalValue (fmtInteger n) = some n := by
  obtain ⟨hne, hdig, hval⟩ := fmtUnsigned_spec n.natAbs
  unfold fmtInteger
  by_cases hn : n < 0
  · rw [if_pos hn]
    have hdata : ("-" ++ fmtUnsigned n.natAbs).data = '-' :: (fmtUnsigned n.natAbs).data := rfl
    unfold decimalValue
    rw [hdata]
    simp only [hval]
    congr 1
    omega
  · rw [if_neg hn]
    unfold decimalValue
    cases hcs : (fmtUnsigned n.natAbs).data with
    | nil => exact absurd hcs hne
    | cons c cs =>
      have hc : c ≠ '-' := by
        intro hc
        have := hdig c (by rw [hcs]; exact List.mem_cons_self _ _)
        rw [hc] at this
        exact absurd this (by decide)
      rw [hcs] at hval
      split
      · rename_i heq
        injection heq with h1 h2
        exact absurd h1 hc
      · simp only [hval]
        congr 1
        omega

/-! ## The loop as a concatenation -/

theorem writeEntry_eq (output : String) (m : Model) :
    writeEntry output m = output ++ entryBlock m := by
  simp only [writeEntry, entryBlock, String.append_assoc, String.empty_append]

/-- What one iteration adds to the builder. -/
theorem loopBody_eq (output : String) (m : Model) :
    loopBody output m = output ++ loopBody "" m := by
  unfold loopBody
  split
  · simp
  · rw [writeEntry_eq, writeEntry_eq "" m, String.empty_append]

theorem ends_with_iff (s suffix : String) :
    (∃ stem : String, s = stem ++ suffix) ↔ suffix.data <:+ s.data :=
  ⟨fun h => h.elim (fun stem hs => ⟨stem.data, (congrArg String.data hs).symm⟩),
   fun h => h.elim (fun t ht => ⟨⟨t⟩, String.ext ht.symm⟩)⟩

theorem skip_iff_not_kept (m : Model) :
    (!m.Capabilities.CompletionChat || !HasSuffix m.ID "-latest") = true ↔ ¬ Kept m := by
  unfold Kept
  rw [ends_with_iff, ← HasSuffix_iff]
  cases m.Capabilities.CompletionChat <;> cases HasSuffix m.ID "-latest" <;> simp

theorem loopBody_of_kept {m : Model} (h : Kept m) : loopBody "" m = entryBlock m := by
  unfold loopBody
  rw [if_neg (by rw [skip_iff_not_kept]; exact not_not.mpr h)]
  rfl

theorem loopBody_of_not_kept {m : Model} (h : ¬ Kept m) : loopBody "" m = "" := by
  unfold loopBody
  rw [if_pos ((skip_iff_not_kept m).mpr h)]

theorem join_map_loopBody (xs : List Model) :
    String.join (xs.map (loopBody "")) =
      String.join ((xs.filter (fun m => decide (Kept m))).map entryBlock) := by
  induction xs with
  | nil => rfl
  | cons m xs ih =>
    by_cases h : Kept m
    · rw [List.map_cons, join_cons, List.filter_cons_of_pos (by simpa using h), List.map_cons,
        join_cons, ih, loopBody_of_kept h]
    · rw [List.map_cons, join_cons, List.filter_cons_of_neg (by simpa using h), ih,
        loopBody_of_not_kept h, String.empty_append]

theorem foldl_loopBody (xs : List Model) (output : String) :
    xs.foldl loopBody output = output ++ String.join (xs.map (loopBody "")) := by
  induction xs generalizing output with
  | nil => simp [join_nil]
  | cons m xs ih =>
    rw [List.foldl_cons, ih, loopBody_eq, List.map_cons, join_cons, String.append_assoc]

theorem generatedText_eq (models : ModelsResponse) :
    generatedText models =
      preamble ++ String.join (models.Data.map (loopBody "")) ++ closing := by
  simp only [generatedText, foldl_loopBody, preamble, closing, String.empty_append,
    String.append_assoc]
  rfl

theorem entryBlock_eq (m : Model) :
    entryBlock m =
      keyLine m ++
      ("\t\tmaxTokens: " ++ fmtInteger m.MaxContextLength ++ ",\n") ++
      ("\t\tcontextWindow: " ++ fmtInteger m.MaxContextLength ++ ",\n") ++
      ("\t\tsupportsImages: " ++ fmtBoolean m.Capabilities.Vision ++ ",\n") ++
      "\t\tsupportsPromptCache: false,\n" ++
      ("\t\tdefaultTemperature: " ++ fmtFloat2 m.DefaultModelTemperature ++ ",\n") ++
      "\t\x7d,\n" := by
  simp only [entryBlock, writeEntry, keyLine, String.empty_append]

/-! ## The generated text as a whole -/

/-- C2: the generated text is the fixed preamble (the declaration of
`mistralDefaultModelId`, a blank line, the line opening `mistralModels`),
then the entry blocks of the kept records in the order in which these
records occur in `Data`, each block being the seven lines written for the
record, then the fixed closing line. The block of a kept record stands
after the text generated for the records before it and before the text
generated for the records after it. For an empty `Data` the text is the
preamble followed by the closing line and nothing else. -/
theorem generatedText_eq_preamble_entries_closing (models : ModelsResponse) :
    generatedText models =
        "export const mistralDefaultModelId: MistralModelId = \"mistral-large-latest\"\n" ++ "\n" ++
        "export const mistralModels = \x7b\n" ++
        String.join ((models.Data.filter (fun m => decide (Kept m))).map (fun m =>
          ("\t\"" ++ m.ID ++ "\": \x7b\n") ++
          ("\t\tmaxTokens: " ++ fmtInteger m.MaxContextLength ++ ",\n") ++
          ("\t\tcontextWindow: " ++ fmtInteger m.MaxContextLength ++ ",\n") ++
          ("\t\tsupportsImages: " ++ fmtBoolean m.Capabilities.Vision ++ ",\n") ++
          "\t\tsupportsPromptCache: false,\n" ++
          ("\t\tdefaultTemperature: " ++ fmtFloat2 m.DefaultModelTemperature ++ ",\n") ++
          "\t\x7d,\n")) ++
        "\x7d as const satisfies Record<string, ModelInfo>\n"
      ∧ (models.Data.filter (fun m => decide (Kept m))).Sublist models.Data
      ∧ (∀ (before after : List Model) (m : Model),
          models.Data = before ++ m :: after → Kept m →
          ∃ head tail : String,
            generatedText ⟨models.Object, before⟩ =
              head ++ "\x7d as const satisfies Record<string, ModelInfo>\n" ∧
            generatedText ⟨models.Object, after⟩ =
              "export const mistralDefaultModelId: MistralModelId = \"mistral-large-latest\"\n" ++
                "\n" ++ "export const mistralModels = \x7b\n" ++ tail ∧
            generatedText models =
              head ++
              (("\t\"" ++ m.ID ++ "\": \x7b\n") ++
               ("\t\tmaxTokens: " ++ fmtInteger m.MaxContextLength ++ ",\n") ++
               ("\t\tcontextWindow: " ++ fmtInteger m.MaxContextLength ++ ",\n") ++
               ("\t\tsupportsImages: " ++ fmtBoolean m.Capabilities.Vision ++ ",\n") ++
               "\t\tsupportsPromptCache: false,\n" ++
               ("\t\tdefaultTemperature: " ++ fmtFloat2 m.DefaultModelTemperature ++ ",\n") ++
               "\t\x7d,\n") ++
              tail)
      ∧ generatedText ⟨models.Object, []⟩ =
        "export const mistralDefaultModelId: MistralModelId = \"mistral-large-latest\"\n\nexport const mistralModels = \x7b\n\x7d as const satisfies Record<string, ModelInfo>\n" := by
  refine ⟨?_, List.filter_sublist _, ?_, rfl⟩
  · rw [generatedText_eq, join_map_loopBody]
    have hfun : entryBlock = (fun m : Model =>
        ("\t\"" ++ m.ID ++ "\": \x7b\n") ++
        ("\t\tmaxTokens: " ++ fmtInteger m.MaxContextLength ++ ",\n") ++
        ("\t\tcontextWindow: " ++ fmtInteger m.MaxContextLength ++ ",\n") ++
        ("\t\tsupportsImages: " ++ fmtBoolean m.Capabilities.Vision ++ ",\n") ++
        "\t\tsupportsPromptCache: false,\n" ++
        ("\t\tdefaultTemperature: " ++ fmtFloat2 m.DefaultModelTemperature ++ ",\n") ++
        "\t\x7d,\n") := by
      funext m
      rw [entryBlock_eq, keyLine]
    rw [hfun]
    rfl
  · intro before after m hdata hk
    obtain ⟨respObject, data⟩ := models
    simp only at hdata
    subst hdata
    refine ⟨preamble ++ String.join (before.map (loopBody "")),
      String.join (after.map (loopBody "")) ++ closing, generatedText_eq _, ?_, ?_⟩
    · rw [generatedText_eq, String.append_assoc]
      rfl
    · simp only [generatedText_eq, List.map_append, List.map_cons, join_append, join_cons,
        loopBody_of_kept hk, entryBlock_eq, keyLine, String.append_assoc]

/-- C3: for the response whose only record has ID `mistral-large-latest`,
`completion_chat` true, `max_context_length` 128000, `vision` false and
`default_model_temperature` 0.7 (the binary64 value nearest to 0.7), the
generated text holds exactly one entry block, keyed `mistral-large-latest`,
with the lines `maxTokens: 128000`, `contextWindow: 128000`,
`supportsImages: false`, `supportsPromptCache: false` and
`defaultTemperature: 0.70`. -/
theorem generatedText_scenarioA (respObject object ownedBy name description type_ : String)
    (created : Int) (fim functionCalling fineTuning : Bool) (aliases : List String)
    (deprecation : Option String) :
    generatedText ⟨respObject,
        [⟨"mistral-large-latest", object, created, ownedBy,
          ⟨true, fim, functionCalling, fineTuning, false⟩, name, description, 128000,
          aliases, deprecation, ⟨0x3FE6666666666666⟩, type_⟩]⟩ =
      "export const mistralDefaultModelId: MistralModelId = \"mistral-large-latest\"\n\nexport const mistralModels = \x7b\n" ++
      ("\t\"mistral-large-latest\": \x7b\n" ++
       "\t\tmaxTokens: 128000,\n" ++
       "\t\tcontextWindow: 128000,\n" ++
       "\t\tsupportsImages: false,\n" ++
       "\t\tsupportsPromptCache: false,\n" ++
       "\t\tdefaultTemperature: 0.70,\n" ++
       "\t\x7d,\n") ++
      "\x7d as const satisfies Record<string, ModelInfo>\n"
    ∧ (List.filter (fun m => decide (Kept m))
        [(⟨"mistral-large-latest", object, created, ownedBy,
          ⟨true, fim, functionCalling, fineTuning, false⟩, name, description, 128000,
          aliases, deprecation, ⟨0x3FE6666666666666⟩, type_⟩ : Model)]).length = 1 := by
  have hk : Kept ⟨"mistral-large-latest", object, created, ownedBy,
      ⟨true, fim, functionCalling, fineTuning, false⟩, name, description, 128000,
      aliases, deprecation, ⟨0x3FE6666666666666⟩, type_⟩ := ⟨rfl, "mistral-large", rfl⟩
  have hd : fmtInteger 128000 = "128000" := by decide
  have hf : fmtFloat2 ⟨0x3FE6666666666666⟩ = "0.70" := by decide
  have hb : fmtBoolean false = "false" := rfl
  constructor
  · rw [generatedText_eq]
    simp only [List.map, loopBody_of_kept hk, join_cons, join_nil, entryBlock_eq, keyLine, hd,
      hf, hb]
    rfl
  · rw [List.filter_cons_of_pos (by simpa using hk)]
    rfl

theorem entryBlock_length_pos (m : Model) : 0 < (entryBlock m).length := by
  rw [entryBlock_eq]
  simp only [String.length_append]
  have : ("\t\x7d,\n" : String).length = 4 := by decide
  omega

theorem generatedText_insert_kept (respObject : String) (before after : List Model) {m : Model}
    (h : Kept m) :
    generatedText ⟨respObject, before ++ m :: after⟩ =
      (preamble ++ String.join (before.map (loopBody ""))) ++ entryBlock m ++
        (String.join (after.map (loopBody "")) ++ closing) := by
  simp only [generatedText_eq, List.map_append, List.map_cons, join_append, join_cons,
    loopBody_of_kept h, String.append_assoc]

theorem generatedText_insert_not_kept (respObject : String) (before after : List Model)
    {m : Model} (h : ¬ Kept m) :
    generatedText ⟨respObject, before ++ m :: after⟩ =
      generatedText ⟨respObject, before ++ after⟩ := by
  simp only [generatedText_eq, List.map_append, List.map_cons, join_append, join_cons,
    loopBody_of_not_kept h, String.empty_append]

theorem generatedText_insert_ne_of_kept (respObject : String) (before after : List Model)
    {m : Model} (h : Kept m) :
    generatedText ⟨respObject, before ++ m :: after⟩ ≠
      generatedText ⟨respObject, before ++ after⟩ := by
  intro heq
  have hl := congrArg String.length heq
  rw [generatedText_insert_kept respObject before after h] at hl
  simp only [generatedText_eq, List.map_append, join_append, String.length_append] at hl
  have := entryBlock_length_pos m
  omega

/-- C1: a record of `Data` appears in the generated text, as an entry block
keyed by its ID standing between the text generated for the records before
it and the text generated for the records after it, if and only if its
`completion_chat` is true and its ID ends with `-latest`; a record that
fails either condition leaves the text as it is without that record. In
particular a record with `completion_chat` false is left out whatever its
ID, and a record with ID `mistral-large` is left out whatever its
capabilities. -/
theorem entry_generated_iff_chat_and_latest (respObject : String) (before after : List Model)
    (m : Model) :
    ((∃ head tail rest : String,
        generatedText ⟨respObject, before⟩ = head ++ closing ∧
        generatedText ⟨respObject, after⟩ = preamble ++ tail ∧
        entryBlock m = ("\t\"" ++ m.ID ++ "\": \x7b\n") ++ rest ∧
        generatedText ⟨respObject, before ++ m :: after⟩ = head ++ entryBlock m ++ tail)
      ↔ (m.Capabilities.CompletionChat = true ∧ ∃ stem : String, m.ID = stem ++ "-latest"))
    ∧ (generatedText ⟨respObject, before ++ m :: after⟩ =
          generatedText ⟨respObject, before ++ after⟩
      ↔ ¬ (m.Capabilities.CompletionChat = true ∧ ∃ stem : String, m.ID = stem ++ "-latest"))
    ∧ (m.Capabilities.CompletionChat = false →
        generatedText ⟨respObject, before ++ m :: after⟩ =
          generatedText ⟨respObject, before ++ after⟩)
    ∧ (m.ID = "mistral-large" →
        generatedText ⟨respObject, before ++ m :: after⟩ =
          generatedText ⟨respObject, before ++ after⟩) := by
  refine ⟨⟨?_, ?_⟩, ⟨?_, ?_⟩, ?_, ?_⟩
  · rintro ⟨head, tail, rest, hb, ha, -, hfull⟩
    by_contra hk
    have hhead : head = preamble ++ String.join (before.map (loopBody "")) := by
      rw [generatedText_eq] at hb
      exact (append_right_cancel hb).symm
    have htail : tail = String.join (after.map (loopBody "")) ++ closing := by
      rw [generatedText_eq, String.append_assoc] at ha
      exact (append_left_cancel ha).symm
    have hl := congrArg String.length hfull
    rw [generatedText_insert_not_kept respObject before after hk, hhead, htail] at hl
    simp only [generatedText_eq, List.map_append, join_append, String.length_append] at hl
    have := entryBlock_length_pos m
    omega
  · intro hk
    refine ⟨preamble ++ String.join (before.map (loopBody "")),
      String.join (after.map (loopBody "")) ++ closing,
      ("\t\tmaxTokens: " ++ fmtInteger m.MaxContextLength ++ ",\n") ++
      (("\t\tcontextWindow: " ++ fmtInteger m.MaxContextLength ++ ",\n") ++
      (("\t\tsupportsImages: " ++ fmtBoolean m.Capabilities.Vision ++ ",\n") ++
      ("\t\tsupportsPromptCache: false,\n" ++
      (("\t\tdefaultTemperature: " ++ fmtFloat2 m.DefaultModelTemperature ++ ",\n") ++
      "\t\x7d,\n")))), ?_, ?_, ?_, ?_⟩
    · rw [generatedText_eq]
    · rw [generatedText_eq, String.append_assoc]
    · rw [entryBlock_eq, keyLine]
      simp only [String.append_assoc]
    · exact generatedText_insert_kept respObject before after hk
  · intro heq hk
    exact generatedText_insert_ne_of_kept respObject before after hk heq
  · intro hk
    exact generatedText_insert_not_kept respObject before after hk
  · intro hc
    apply generatedText_insert_not_kept
    rintro ⟨hchat, -⟩
    rw [hc] at hchat
    exact Bool.noConfusion hchat
  · intro hid
    apply generatedText_insert_not_kept
    rintro ⟨-, stem, hs⟩
    rw [hid] at hs
    have hsuf : "-latest".data <:+ "mistral-large".data := (ends_with_iff _ _).mp ⟨stem, hs⟩
    revert hsuf
    decide

/-! ## The fields of an entry -/

theorem generatedText_entry (respObject : String) (before after : List Model) {m : Model}
    (h : Kept m) :
    ∃ head tail : String,
      generatedText ⟨respObject, before⟩ = head ++ closing ∧
      generatedText ⟨respObject, after⟩ = preamble ++ tail ∧
      generatedText ⟨respObject, before ++ m :: after⟩ = head ++ entryBlock m ++ tail :=
  ⟨preamble ++ String.join (before.map (loopBody "")),
    String.join (after.map (loopBody "")) ++ closing,
    generatedText_eq _,
    by rw [generatedText_eq, String.append_assoc],
    generatedText_insert_kept respObject before after h⟩

theorem kept_chatModel (stem : String) (t : Float64) : Kept (chatModel (stem ++ "-latest") t) :=
  ⟨rfl, stem, rfl⟩

/-- C5: in the entry block of a kept record the value written after
`maxTokens: ` and the value written after `contextWindow: ` are the same
text, and that text is the decimal numeral of the record's
`max_context_length`, for every integer (zero and negative ones included). -/
theorem maxTokens_and_contextWindow_are_max_context_length (respObject : String)
    (before after : List Model) (m : Model) (hk : Kept m) :
    ∃ head rest tail value : String,
      generatedText ⟨respObject, before⟩ = head ++ closing ∧
      generatedText ⟨respObject, after⟩ = preamble ++ tail ∧
      generatedText ⟨respObject, before ++ m :: after⟩ =
        head ++ (("\t\"" ++ m.ID ++ "\": \x7b\n") ++
          ("\t\tmaxTokens: " ++ value ++ ",\n") ++
          ("\t\tcontextWindow: " ++ value ++ ",\n") ++ rest) ++ tail ∧
      value = fmtInteger m.MaxContextLength ∧
      decimalValue value = some m.MaxContextLength ∧
      fmtInteger 0 = "0" ∧ fmtInteger (-1) = "-1" := by
  obtain ⟨head, tail, hb, ha, hfull⟩ := generatedText_entry respObject before after hk
  refine ⟨head,
    ("\t\tsupportsImages: " ++ fmtBoolean m.Capabilities.Vision ++ ",\n") ++
      ("\t\tsupportsPromptCache: false,\n" ++
      (("\t\tdefaultTemperature: " ++ fmtFloat2 m.DefaultModelTemperature ++ ",\n") ++
      "\t\x7d,\n")),
    tail, fmtInteger m.MaxContextLength, hb, ha, ?_, rfl,
    decimalValue_fmtInteger _, by decide, by decide⟩
  rw [hfull, entryBlock_eq, keyLine]
  simp only [String.append_assoc]

theorem maxTokens_and_contextWindow_witness :
    ∃ head rest tail value : String,
      generatedText ⟨"list", []⟩ = head ++ closing ∧
      generatedText ⟨"list", []⟩ = preamble ++ tail ∧
      generatedText ⟨"list", [] ++ chatModel "mistral-large-latest" float0_7 :: []⟩ =
        head ++ (("\t\"" ++ "mistral-large-latest" ++ "\": \x7b\n") ++
          ("\t\tmaxTokens: " ++ value ++ ",\n") ++
          ("\t\tcontextWindow: " ++ value ++ ",\n") ++ rest) ++ tail ∧
      value = fmtInteger 128000 ∧
      decimalValue value = some 128000 ∧
      fmtInteger 0 = "0" ∧ fmtInteger (-1) = "-1" :=
  maxTokens_and_contextWindow_are_max_context_length "list" [] []
    (chatModel "mistral-large-latest" float0_7) (kept_chatModel "mistral-large" float0_7)

/-- C6: whatever the response, every entry block of the generated text holds
the line `supportsPromptCache: false,` between its `supportsImages` line and
its `defaultTemperature` line; the line is a constant and no field of the
record enters it. -/
theorem supportsPromptCache_false_in_every_entry (models : ModelsResponse) :
    generatedText models =
      preamble ++
      String.join ((models.Data.filter (fun m => decide (Kept m))).map (fun m =>
        (("\t\"" ++ m.ID ++ "\": \x7b\n") ++
          ("\t\tmaxTokens: " ++ fmtInteger m.MaxContextLength ++ ",\n") ++
          ("\t\tcontextWindow: " ++ fmtInteger m.MaxContextLength ++ ",\n") ++
          ("\t\tsupportsImages: " ++ fmtBoolean m.Capabilities.Vision ++ ",\n")) ++
        "\t\tsupportsPromptCache: false,\n" ++
        (("\t\tdefaultTemperature: " ++ fmtFloat2 m.DefaultModelTemperature ++ ",\n") ++
          "\t\x7d,\n"))) ++
      closing := by
  rw [generatedText_eq, join_map_loopBody]
  congr 4
  funext m
  rw [entryBlock_eq, keyLine]
  simp only [String.append_assoc]

/-! ## The temperature field -/

theorem hasTwoDecimals_of_digits (whole : List Char) (d₁ d₂ : Char) (hne : whole ≠ [])
    (hdig : ∀ c ∈ whole, c.isDigit = true) (h₁ : d₁.isDigit = true) (h₂ : d₂.isDigit = true)
    (unsigned : List Char) (hu : unsigned = whole ++ ['.', d₁, d₂]) :
    (!(unsigned.takeWhile Char.isDigit).isEmpty &&
      (match unsigned.dropWhile Char.isDigit with
       | ['.', d₁, d₂] => d₁.isDigit && d₂.isDigit
       | _ => false)) = true := by
  have hpoint : Char.isDigit '.' = false := by decide
  have htake : unsigned.takeWhile Char.isDigit = whole := by
    rw [hu, List.takeWhile_append_of_pos hdig]
    simp [List.takeWhile, hpoint]
  have hdrop : unsigned.dropWhile Char.isDigit = ['.', d₁, d₂] := by
    rw [hu, List.dropWhile_append_of_pos hdig]
    simp [List.dropWhile, hpoint]
  rw [htake, hdrop]
  cases whole with
  | nil => exact absurd rfl hne
  | cons c cs => simp [h₁, h₂]

theorem hasTwoDecimals_unsigned (s : String) (whole : List Char) (d₁ d₂ : Char)
    (hne : whole ≠ []) (hdig : ∀ c ∈ whole, c.isDigit = true) (h₁ : d₁.isDigit = true)
    (h₂ : d₂.isDigit = true) (hs : s.data = whole ++ ['.', d₁, d₂]) :
    hasTwoDecimals s = true := by
  unfold hasTwoDecimals
  have hmatch : (match s.data with
      | '-' :: cs => cs
      | cs => cs) = whole ++ ['.', d₁, d₂] := by
    split
    · rename_i cs heq
      rw [hs] at heq
      cases whole with
      | nil => exact absurd rfl hne
      | cons c rest =>
        injection heq with h1 _
        have := hdig c (List.mem_cons_self _ _)
        rw [h1] at this
        exact absurd this (by decide)
    · exact hs
  simp only [hmatch]
  exact hasTwoDecimals_of_digits whole d₁ d₂ hne hdig h₁ h₂ _ rfl

theorem hasTwoDecimals_signed (s : String) (whole : List Char) (d₁ d₂ : Char)
    (hne : whole ≠ []) (hdig : ∀ c ∈ whole, c.isDigit = true) (h₁ : d₁.isDigit = true)
    (h₂ : d₂.isDigit = true) (hs : s.data = '-' :: (whole ++ ['.', d₁, d₂])) :
    hasTwoDecimals s = true := by
  unfold hasTwoDecimals
  simp only [hs]
  exact hasTwoDecimals_of_digits whole d₁ d₂ hne hdig h₁ h₂ _ rfl

theorem fmtFloat2_twoDecimals (f : Float64) (h : f.isFinite = true) :
    hasTwoDecimals (fmtFloat2 f) = true := by
  have hexp : f.expField ≠ 2047 := by simpa [Float64.isFinite] using h
  obtain ⟨hne, hdig, -⟩ := fmtUnsigned_spec (f.roundedHundredths / 100)
  have h₁ := (digitChar_isDigit (f.roundedHundredths / 10 % 10) (Nat.mod_lt _ (by decide))).1
  have h₂ := (digitChar_isDigit (f.roundedHundredths % 10) (Nat.mod_lt _ (by decide))).1
  unfold fmtFloat2
  rw [if_neg hexp]
  cases f.neg
  · exact hasTwoDecimals_unsigned _ _ _ _ hne hdig h₁ h₂ (by simp [String.data_append])
  · exact hasTwoDecimals_signed _ _ _ _ hne hdig h₁ h₂ (by simp [String.data_append])

/-- The digits kept by `%.2f` are the nearest hundredths: for a value
`mant / 2 ^ k` the rounded count of hundredths `q` satisfies
`|q * 2 ^ k - mant * 100| ≤ 2 ^ k / 2`. -/
theorem roundedHundredths_nearest (f : Float64) (h : f.decompose.2 < 1075) :
    2 * (f.roundedHundredths * 2 ^ (1075 - f.decompose.2) - f.decompose.1 * 100) ≤
        2 ^ (1075 - f.decompose.2) ∧
    2 * (f.decompose.1 * 100 - f.roundedHundredths * 2 ^ (1075 - f.decompose.2)) ≤
        2 ^ (1075 - f.decompose.2) := by
  unfold Float64.roundedHundredths
  generalize f.decompose = p at h ⊢
  obtain ⟨mant, exp⟩ := p
  simp only at h ⊢
  rw [if_neg (by omega)]
  have hpos : 0 < 2 ^ (1075 - exp) := Nat.pow_pos (by decide)
  generalize 2 ^ (1075 - exp) = d at hpos ⊢
  have hdm := Nat.div_add_mod (mant * 100) d
  have hr := Nat.mod_lt (mant * 100) hpos
  revert hr
  generalize mant * 100 / d = q at hdm ⊢
  generalize mant * 100 % d = r at hdm ⊢
  generalize mant * 100 = n at hdm ⊢
  have hqd : q * d = d * q := Nat.mul_comm q d
  intro hr
  split
  · rename_i hup
    rw [Nat.add_mul, Nat.one_mul]
    omega
  · rename_i hup
    omega

/-- The bit pattern `float0_7` is the binary64 value nearest to 7/10: it is
`6305039478318694 / 2 ^ 53`, less than half a unit in the last place away. -/
theorem float0_7_nearest :
    float0_7.decompose = (6305039478318694, 1022) ∧
    2 * (7 * 2 ^ 53 - 10 * 6305039478318694) < 10 ∧ 10 * 6305039478318694 ≤ 7 * 2 ^ 53 := by
  decide

/-- C4, as amended: for every kept record whose `default_model_temperature`
is finite, the last field line of its entry block is `defaultTemperature: `
followed by a rendering with exactly two digits after the decimal point; the
value 1 renders as `1.00` and zero as `0.00`. -/
theorem defaultTemperature_two_decimals_of_finite (respObject : String)
    (before after : List Model) (m : Model) (hk : Kept m)
    (hfin : m.DefaultModelTemperature.isFinite = true) :
    ∃ head tail temperature : String,
      generatedText ⟨respObject, after⟩ = preamble ++ tail ∧
      generatedText ⟨respObject, before ++ m :: after⟩ =
        head ++ ("\t\tdefaultTemperature: " ++ temperature ++ ",\n") ++ "\t\x7d,\n" ++ tail ∧
      temperature = fmtFloat2 m.DefaultModelTemperature ∧
      hasTwoDecimals temperature = true ∧
      fmtFloat2 float1 = "1.00" ∧ fmtFloat2 ⟨0⟩ = "0.00" := by
  obtain ⟨head, tail, -, ha, hfull⟩ := generatedText_entry respObject before after hk
  refine ⟨head ++ (keyLine m ++
      ("\t\tmaxTokens: " ++ fmtInteger m.MaxContextLength ++ ",\n") ++
      ("\t\tcontextWindow: " ++ fmtInteger m.MaxContextLength ++ ",\n") ++
      ("\t\tsupportsImages: " ++ fmtBoolean m.Capabilities.Vision ++ ",\n") ++
      "\t\tsupportsPromptCache: false,\n"),
    tail, fmtFloat2 m.DefaultModelTemperature, ha, ?_, rfl,
    fmtFloat2_twoDecimals _ hfin, by decide, by decide!⟩
  rw [hfull, entryBlock_eq]
  simp only [String.append_assoc]

theorem defaultTemperature_two_decimals_witness :
    ∃ head tail temperature : String,
      generatedText ⟨"list", []⟩ = preamble ++ tail ∧
      generatedText ⟨"list", [] ++ chatModel "mistral-large-latest" float0_7 :: []⟩ =
        head ++ ("\t\tdefaultTemperature: " ++ temperature ++ ",\n") ++ "\t\x7d,\n" ++ tail ∧
      temperature = fmtFloat2 float0_7 ∧
      hasTwoDecimals temperature = true ∧
      fmtFloat2 float1 = "1.00" ∧ fmtFloat2 ⟨0⟩ = "0.00" :=
  defaultTemperature_two_decimals_of_finite "list" [] []
    (chatModel "mistral-large-latest" float0_7) (kept_chatModel "mistral-large" float0_7)
    (by decide)

/-- C4 fails as stated: the kept record `nanModel`, whose temperature is
NaN, gets the field line `defaultTemperature: NaN,`, which has no decimal
point and no digit after it. -/
theorem defaultTemperature_nan_counterexample :
    Kept nanModel ∧
    generatedText ⟨"list", [nanModel]⟩ =
      "export const mistralDefaultModelId: MistralModelId = \"mistral-large-latest\"\n\nexport const mistralModels = \x7b\n" ++
      ("\t\"mistral-large-latest\": \x7b\n" ++
       "\t\tmaxTokens: 128000,\n" ++
       "\t\tcontextWindow: 128000,\n" ++
       "\t\tsupportsImages: false,\n" ++
       "\t\tsupportsPromptCache: false,\n" ++
       "\t\tdefaultTemperature: NaN,\n" ++
       "\t\x7d,\n") ++
      "\x7d as const satisfies Record<string, ModelInfo>\n" ∧
    fmtFloat2 nanModel.DefaultModelTemperature = "NaN" ∧
    hasTwoDecimals (fmtFloat2 nanModel.DefaultModelTemperature) = false :=
  ⟨kept_chatModel "mistral-large" floatNaN, by rfl, by decide, by decide⟩

/-! ## The key of an entry -/

/-- C10: for every kept record the entry block begins with a tab, a double
quote, the ID character for character, a double quote and `: \x7b`, then a
line break; nothing is escaped. For the kept ID `a"b-latest` the key line
holds the inner double quote as it is, so the text between the first two
double quotes of the key line is `a`, not the ID. -/
theorem key_line_is_the_unescaped_id (respObject : String) (before after : List Model)
    (m : Model) (hk : Kept m) :
    (∃ head rest : String,
      generatedText ⟨respObject, before⟩ = head ++ closing ∧
      generatedText ⟨respObject, before ++ m :: after⟩ =
        head ++ ("\t\"" ++ m.ID ++ "\": \x7b\n") ++ ("\t\tmaxTokens: " ++ rest))
    ∧ ("\t\"" ++ m.ID ++ "\": \x7b\n").data =
        '\t' :: '\x22' :: (m.ID.data ++ ['\x22', ':', ' ', '\x7b', '\n'])
    ∧ (Kept quotedModel ∧ quotedModel.ID = "a\"b-latest" ∧ '\x22' ∈ quotedModel.ID.data ∧
        generatedText ⟨"list", [quotedModel]⟩ =
          "export const mistralDefaultModelId: MistralModelId = \"mistral-large-latest\"\n\nexport const mistralModels = \x7b\n" ++
          ("\t\"a\"b-latest\": \x7b\n" ++
           "\t\tmaxTokens: 128000,\n" ++
           "\t\tcontextWindow: 128000,\n" ++
           "\t\tsupportsImages: false,\n" ++
           "\t\tsupportsPromptCache: false,\n" ++
           "\t\tdefaultTemperature: 0.70,\n" ++
           "\t\x7d,\n") ++
          "\x7d as const satisfies Record<string, ModelInfo>\n" ∧
        ((keyLine quotedModel).data.drop 2).takeWhile (fun c => c != '\x22') = ['a'] ∧
        quotedModel.ID.data ≠ ['a']) := by
  obtain ⟨head, tail, hb, -, hfull⟩ := generatedText_entry respObject before after hk
  refine ⟨⟨head,
    (fmtInteger m.MaxContextLength ++ ",\n") ++
      (("\t\tcontextWindow: " ++ fmtInteger m.MaxContextLength ++ ",\n") ++
      (("\t\tsupportsImages: " ++ fmtBoolean m.Capabilities.Vision ++ ",\n") ++
      ("\t\tsupportsPromptCache: false,\n" ++
      (("\t\tdefaultTemperature: " ++ fmtFloat2 m.DefaultModelTemperature ++ ",\n") ++
      ("\t\x7d,\n" ++ tail))))), hb, ?_⟩,
    rfl, kept_chatModel "a\"b" float0_7, rfl, by decide, by rfl, by decide, by decide⟩
  rw [hfull, entryBlock_eq, keyLine]
  simp only [String.append_assoc]

theorem key_line_witness :
    (∃ head rest : String,
      generatedText ⟨"list", []⟩ = head ++ closing ∧
      generatedText ⟨"list", [] ++ quotedModel :: []⟩ =
        head ++ ("\t\"" ++ quotedModel.ID ++ "\": \x7b\n") ++ ("\t\tmaxTokens: " ++ rest))
    ∧ ("\t\"" ++ quotedModel.ID ++ "\": \x7b\n").data =
        '\t' :: '\x22' :: (quotedModel.ID.data ++ ['\x22', ':', ' ', '\x7b', '\n']) :=
  ⟨(key_line_is_the_unescaped_id "list" [] [] quotedModel (kept_chatModel "a\"b" float0_7)).1,
   (key_line_is_the_unescaped_id "list" [] [] quotedModel (kept_chatModel "a\"b" float0_7)).2.1⟩

/-! ## The declared default model -/

theorem not_kept_noChatModel : ¬ Kept noChatModel := fun h => Bool.noConfusion h.1

/-- C9: whatever the response, the generated text opens with the line that
declares `mistralDefaultModelId` as the literal `mistral-large-latest`; no
check ties that literal to the entries. For the empty response, and for the
response whose only record is named `mistral-large-latest` but has
`completion_chat` false, no record is kept and the generated text holds no
key line `"mistral-large-latest": \x7b` at all. -/
theorem default_model_id_is_not_validated (models : ModelsResponse) :
    (∃ rest : String, generatedText models =
      "export const mistralDefaultModelId: MistralModelId = \"mistral-large-latest\"\n" ++ rest)
    ∧ ((([] : List Model).filter (fun m => decide (Kept m))) = [] ∧
        ¬ ("\t\"mistral-large-latest\": \x7b\n".data <:+:
            (generatedText ⟨models.Object, []⟩).data))
    ∧ (noChatModel.ID = "mistral-large-latest" ∧
        noChatModel.Capabilities.CompletionChat = false ∧
        [noChatModel].filter (fun m => decide (Kept m)) = [] ∧
        ¬ ("\t\"mistral-large-latest\": \x7b\n".data <:+:
            (generatedText ⟨models.Object, [noChatModel]⟩).data)) := by
  have hempty : generatedText ⟨models.Object, []⟩ = preamble ++ closing := rfl
  have hnochat : generatedText ⟨models.Object, [noChatModel]⟩ = preamble ++ closing :=
    generatedText_insert_not_kept models.Object [] [] not_kept_noChatModel
  have hfree : ¬ ("\t\"mistral-large-latest\": \x7b\n".data <:+: (preamble ++ closing).data) := by
    decide!
  refine ⟨⟨"\n" ++ "export const mistralModels = \x7b\n" ++
      String.join (models.Data.map (loopBody "")) ++ closing, ?_⟩,
    ⟨rfl, ?_⟩, rfl, rfl, ?_, ?_⟩
  · rw [generatedText_eq, preamble]
    simp only [String.append_assoc]
  · rw [hempty]
    exact hfree
  · exact List.filter_cons_of_neg (by simpa using not_kept_noChatModel)
  · rw [hnochat]
    exact hfree

/-! ## Determinism -/

/-- C8: the text `generateModelDescription` hands to `os.WriteFile` is
`generatedText models` in every world: two runs on the same response, in
worlds that may differ in clock, environment and every answer they give,
perform the same effects and write the same bytes to
`mistralDescription.txt`. -/
theorem generateModelDescription_same_text (models : ModelsResponse) (w₁ w₂ : World) :
    (generateModelDescription w₁ models).2 = (generateModelDescription w₂ models).2
    ∧ (generateModelDescription w₁ models).2 =
        [Event.writeFile "mistralDescription.txt" (generatedText models) 0o644]
    ∧ writesTo "mistralDescription.txt"
        ((generateModelDescription w₁ models).2 ++ (generateModelDescription w₂ models).2) =
        [generatedText models, generatedText models] := by
  refine ⟨rfl, rfl, ?_⟩
  simp [generateModelDescription, writesTo]

/-! ## main on a response that is not 200 -/

theorem logFileName_ne (timestamp : String) : logFileName timestamp ≠ "mistralDescription.txt" := by
  intro h
  have hd := congrArg String.data h
  have hl : (logFileName timestamp).data =
      'l' :: ("ogs/mistral_api_response_".data ++ timestamp.data ++ ".json".data) := rfl
  rw [hl] at hd
  have hm : ("mistralDescription.txt" : String).data = 'm' :: "istralDescription.txt".data := rfl
  rw [hm] at hd
  injection hd with h1 _
  exact absurd h1 (by decide)

/-- C7, as amended: when the server answers with a status code other than
200 and the body is read, `main` never reaches `generateModelDescription`,
so nothing is written to `mistralDescription.txt`; and when creating `logs`
and writing the log file succeed, the run is exactly: the request, the
`MkdirAll`, one `WriteFile` of the raw body to
`logs/mistral_api_response_<timestamp>.json`, and the error message. The
log file then holds the body as received, whatever it is. -/
theorem non200_logs_body_and_skips_generation (w : World) (resp : HttpResponse) (body : String)
    (henv : w.dotenvErr = none) (hkey : w.getenv "MISTRAL_API_KEY" ≠ "")
    (hreq : w.newRequestErr = none)
    (hdo : w.clientDo "GET" MISTRAL_API_URL (requestHeaders (w.getenv "MISTRAL_API_KEY")) =
      .ok resp)
    (hbody : resp.Body = .ok body) (hstatus : resp.StatusCode ≠ 200) :
    writesTo "mistralDescription.txt" (main w) = []
    ∧ (w.mkdirAllErr "logs" = none → w.writeFileErr (logFileName w.now) body = none →
        main w =
          [ Event.httpRequest "GET" "https://api.mistral.ai/v1/models"
              (requestHeaders (w.getenv "MISTRAL_API_KEY")),
            Event.mkdirAll "logs" 0o755,
            Event.writeFile ("logs/mistral_api_response_" ++ w.now ++ ".json") body 0o644,
            Event.stdout ("Error: API returned status code " ++ fmtInteger resp.StatusCode ++
              "\nResponse: " ++ body ++ "\n") ]
        ∧ writesTo ("logs/mistral_api_response_" ++ w.now ++ ".json") (main w) = [body]) := by
  have hne := logFileName_ne w.now
  have hdo2 : w.clientDo "GET" MISTRAL_API_URL
      [("Authorization", "Bearer " ++ w.getenv "MISTRAL_API_KEY"),
        ("Content-Type", "application/json")] = .ok resp := hdo
  have hlog : "logs/mistral_api_response_" ++ w.now ++ ".json" = logFileName w.now := rfl
  constructor
  · cases hmk : w.mkdirAllErr "logs" with
    | some err =>
      simp [main, henv, hkey, hreq, hdo2, hbody, hmk, writesTo]
    | none =>
      cases hwr : w.writeFileErr (logFileName w.now) body with
      | some err =>
        simp [main, henv, hkey, hreq, hdo2, hbody, hmk, hlog, hwr, writesTo, hne]
      | none =>
        simp [main, henv, hkey, hreq, hdo2, hbody, hmk, hlog, hwr, hstatus, writesTo, hne]
  · intro hmk hwr
    constructor
    · simp only [main, henv, hreq, hdo2, hbody, hmk, hlog, hwr, if_neg hkey]
      rw [if_pos hstatus]
      rfl
    · simp [main, henv, hkey, hreq, hdo2, hbody, hmk, hlog, hwr, hstatus, writesTo]

theorem non200_witness :
    writesTo "mistralDescription.txt" (main (answeringWorld 401 "Unauthorized")) = []
    ∧ writesTo "logs/mistral_api_response_2024-01-02_03-04-05.json"
        (main (answeringWorld 401 "Unauthorized")) = ["Unauthorized"] :=
  ⟨(non200_logs_body_and_skips_generation (answeringWorld 401 "Unauthorized")
      ⟨401, .ok "Unauthorized"⟩ "Unauthorized" rfl (by decide) rfl rfl rfl (by decide)).1,
   ((non200_logs_body_and_skips_generation (answeringWorld 401 "Unauthorized")
      ⟨401, .ok "Unauthorized"⟩ "Unauthorized" rfl (by decide) rfl rfl rfl (by decide)).2
      rfl rfl).2⟩

/-- C7 fails as stated: when the server answers 500 with an empty body and
every call succeeds, the run writes the audit-log file, and that file is
empty; and when the server answers 500 with a body but the directory `logs`
cannot be created, the run writes no file at all. -/
theorem non200_audit_log_counterexample :
    (main (answeringWorld 500 "") =
        [ Event.httpRequest "GET" "https://api.mistral.ai/v1/models"
            [("Authorization", "Bearer secret"), ("Content-Type", "application/json")],
          Event.mkdirAll "logs" 0o755,
          Event.writeFile "logs/mistral_api_response_2024-01-02_03-04-05.json" "" 0o644,
          Event.stdout "Error: API returned status code 500\nResponse: \n" ]
      ∧ writesTo "logs/mistral_api_response_2024-01-02_03-04-05.json"
          (main (answeringWorld 500 "")) = [""]
      ∧ ("" : String).length = 0)
    ∧ (main (logsDirFailingWorld 500 "Internal Server Error") =
        [ Event.httpRequest "GET" "https://api.mistral.ai/v1/models"
            [("Authorization", "Bearer secret"), ("Content-Type", "application/json")],
          Event.mkdirAll "logs" 0o755,
          Event.stdout "Error creating logs directory: mkdir logs: permission denied\n" ]
      ∧ ∀ name : String,
          writesTo name (main (logsDirFailingWorld 500 "Internal Server Error")) = []) := by
  refine ⟨⟨by rfl, by rfl, rfl⟩, by rfl, ?_⟩
  intro name
  rfl

end MistralApiClient
